import Mathlib

/- Verification development for the Sigen cloud client (src/sigen):
authentication and token lifecycle (auth.py, northbound.py), telemetry
decoding and the MQTT stream session loop (mqtt.py), and operational-mode
resolution (modes.py), embedded shallowly.  Machine floats and wall-clock
instants are modelled as rationals; Python dicts as association lists. -/

namespace Sigen

/-- JSON-ish values as they appear in decoded MQTT/REST payloads.  Numbers
are modelled as rationals; `jother` stands for values (lists, nested
objects) on which Python `float()` raises `TypeError`. -/
inductive JVal where
  | jstr (s : String)
  | jnum (q : ℚ)
  | jbool (b : Bool)
  | jnull
  | jother
  deriving Repr, DecidableEq

/-- `dict.get(key)`: first binding wins, absent key gives `none`. -/
def jlookup (kvs : List (String × JVal)) (k : String) : Option JVal :=
  (kvs.find? (fun p => p.1 == k)).map (fun p => p.2)

def digitsToNat (cs : List Char) : Nat :=
  cs.foldl (fun a c => a * 10 + (c.toNat - 48)) 0

def allDigits (cs : List Char) : Bool :=
  cs.all Char.isDigit

/-- Digits with an optional fractional part, e.g. `123`, `123.`, `.5`,
`87.5`; at least one digit must be present. -/
def mantissaVal : List Char → Option ℚ
  | cs =>
    match cs.splitOn '.' with
    | [whole] =>
        if !whole.isEmpty && allDigits whole then some (digitsToNat whole) else none
    | [whole, frac] =>
        if (!whole.isEmpty || !frac.isEmpty) && allDigits whole && allDigits frac then
          some ((digitsToNat whole : ℚ) + (digitsToNat frac : ℚ) / (10 ^ frac.length))
        else none
    | _ => none

/-- Decimal exponent with optional sign. -/
def expVal : List Char → Option Int
  | '+' :: cs => if !cs.isEmpty && allDigits cs then some (digitsToNat cs) else none
  | '-' :: cs => if !cs.isEmpty && allDigits cs then some (-(digitsToNat cs : Int)) else none
  | cs => if !cs.isEmpty && allDigits cs then some (digitsToNat cs) else none

def pyFloatCore (cs : List Char) : Option ℚ :=
  match (cs.map Char.toLower).splitOn 'e' with
  | [m] => mantissaVal m
  | [m, ex] => do
      let mv ← mantissaVal m
      let ev ← expVal ex
      some (mv * (10 : ℚ) ^ ev)
  | _ => none

/-- Model of Python `float(s)` on a string: optional sign, decimal digits
with optional fractional part and optional decimal exponent; `none` means
`float()` raises `ValueError`.  (Only the finite decimal fragment is
modelled: `inf`/`nan`, underscores and surrounding whitespace — none of
which occur in telemetry payloads — are treated as parse failures.) -/
def pyFloat? (s : String) : Option ℚ :=
  match s.toList with
  | [] => none
  | '+' :: cs => pyFloatCore cs
  | '-' :: cs => (pyFloatCore cs).map Neg.neg
  | cs => pyFloatCore cs

/-- Python `float(v)` on a decoded JSON value: numbers pass through, bools
coerce, strings parse, `None`/lists/objects raise (`none`). -/
def pyFloatOfJVal : JVal → Option ℚ
  | .jstr s => pyFloat? s
  | .jnum q => some q
  | .jbool b => some (if b then 1 else 0)
  | .jnull => none
  | .jother => none

/-- The `_float` helper inside `TelemetryData.from_mqtt_payload`:
`v = values.get(key); if v is None: return default; try: return float(v)
except (ValueError, TypeError): return default`. -/
def floatField (values : List (String × JVal)) (key : String) (default : ℚ) : ℚ :=
  ((jlookup values key).bind pyFloatOfJVal).getD default

/-- `TelemetryData` (mqtt.py): parsed telemetry from MQTT periodic
messages, all powers in kW. -/
structure TelemetryData where
  timestamp : String := ""
  system_id : String := ""
  device_type : String := ""
  pv_power_kw : ℚ := 0
  battery_power_kw : ℚ := 0
  soc_percent : ℚ := 0
  grid_power_kw : ℚ := 0
  load_power_kw : ℚ := 0
  raw : List (String × JVal) := []
  deriving Repr, DecidableEq

/-- One raw telemetry entry as handed to `from_mqtt_payload`: the three
header fields (absent key modelled as `none`, matching `dict.get(k, "")`)
and the `value` sub-dict. -/
structure RawEntry where
  statisticsTime : Option String := none
  systemId : Option String := none
  deviceType : Option String := none
  value : List (String × JVal) := []
  deriving Repr, DecidableEq

/-- `TelemetryData.from_mqtt_payload` (mqtt.py lines 59–92): converts the
string-valued watt fields to kW (divide by 1000), inverts the battery
sign (Sigen sends positive for charge, the client uses positive for
discharge), and keeps SOC as-is. -/
def TelemetryData.from_mqtt_payload (data : RawEntry) : TelemetryData :=
  let values := data.value
  let sigen_battery_w := floatField values "storageChargeDischargePowerW" 0
  let battery_kw := -sigen_battery_w / 1000
  { timestamp := data.statisticsTime.getD ""
    system_id := data.systemId.getD ""
    device_type := data.deviceType.getD ""
    pv_power_kw := floatField values "pvPowerW" 0 / 1000
    battery_power_kw := battery_kw
    soc_percent := floatField values "storageSOC%" 0
    grid_power_kw := floatField values "gridActivePowerW" 0 / 1000
    load_power_kw := floatField values "loadActivePowerW" 0 / 1000
    raw := values }

/-- The concrete raw entry of the spec's worked example. -/
def specExampleEntry : RawEntry :=
  { statisticsTime := some "t1"
    systemId := some "S1"
    deviceType := some "ESS"
    value := [("pvPowerW", .jstr "1200"),
              ("storageChargeDischargePowerW", .jstr "-500"),
              ("storageSOC%", .jstr "87.5"),
              ("gridActivePowerW", .jstr "-300"),
              ("loadActivePowerW", .jstr "900")] }

/-- Python exceptions raised by the embedded operations. -/
inductive PyExc where
  | sigenAuthError
  | sigenTokenExpiredError
  | runtimeError (msg : String)
  deriving Repr, DecidableEq

/-- `TokenManager` (auth.py): the three token-store fields, all `None` at
construction.  Instants (`token_expiry`, `time.time()`) are rationals. -/
structure TokenManager where
  access_token : Option String := none
  refresh_token : Option String := none
  token_expiry : Option ℚ := none
  deriving Repr, DecidableEq

/-- Python str() of an optional string as interpolated by an f-string:
`None` prints as `"None"`. -/
def pyStrOfOpt : Option String → String
  | none => "None"
  | some s => s

/-- `TokenManager.headers` (auth.py lines 41–47): the two auth headers,
built unconditionally from whatever `access_token` currently holds. -/
def TokenManager.headers (tm : TokenManager) : List (String × String) :=
  [("Authorization", "Bearer " ++ pyStrOfOpt tm.access_token),
   ("Content-Type", "application/json")]

/-- The `data` envelope of an OAuth token response, as consumed by
`get_access_token` / `refresh_access_token`: the three expected keys
(`none` = key absent) plus a flag recording whether the dict carries any
other keys (which makes an otherwise key-less dict truthy in Python). -/
structure OAuthData where
  access_token : Option String := none
  refresh_token : Option String := none
  expires_in : Option ℚ := none
  extraKeys : Bool := false
  deriving Repr, DecidableEq

/-- An HTTP response from the `auth/oauth/token` endpoint: status code and
`response_json.get("data")` (`none` = no `data` key). -/
structure OAuthResponse where
  status : Nat
  data : Option OAuthData := none
  deriving Repr, DecidableEq

/-- Python truthiness of `response_data`: `None` and the empty dict are
falsy. -/
def oauthDataFalsy : Option OAuthData → Bool
  | none => true
  | some d =>
      d.access_token.isNone && d.refresh_token.isNone && d.expires_in.isNone && !d.extraKeys

/-- `TokenManager.get_access_token` (auth.py lines 49–87), as a function of
the wire response and the current instant.  Returns the post-state and the
exception raised, if any: 401 and any other non-200 raise `SigenAuthError`,
as does a falsy `data` envelope or one missing any of the three keys; on
success all three fields are installed from the envelope. -/
def TokenManager.get_access_token (tm : TokenManager) (resp : OAuthResponse) (now : ℚ) :
    TokenManager × Option PyExc :=
  if resp.status = 401 then (tm, some .sigenAuthError)
  else if resp.status ≠ 200 then (tm, some .sigenAuthError)
  else
    match resp.data with
    | none => (tm, some .sigenAuthError)
    | some d =>
        if oauthDataFalsy (some d) || d.access_token.isNone || d.refresh_token.isNone
            || d.expires_in.isNone then
          (tm, some .sigenAuthError)
        else
          ({ access_token := d.access_token
             refresh_token := d.refresh_token
             token_expiry := d.expires_in.map (fun e => now + e) }, none)

/-- `TokenManager.refresh_access_token` (auth.py lines 89–120): same
response handling as the password grant but every failure raises
`SigenTokenExpiredError`; the stored (stale) fields are left untouched on
failure. -/
def TokenManager.refresh_access_token (tm : TokenManager) (resp : OAuthResponse) (now : ℚ) :
    TokenManager × Option PyExc :=
  if resp.status ≠ 200 then (tm, some .sigenTokenExpiredError)
  else
    match resp.data with
    | none => (tm, some .sigenTokenExpiredError)
    | some d =>
        if oauthDataFalsy (some d) || d.access_token.isNone || d.refresh_token.isNone
            || d.expires_in.isNone then
          (tm, some .sigenTokenExpiredError)
        else
          ({ access_token := d.access_token
             refresh_token := d.refresh_token
             token_expiry := d.expires_in.map (fun e => now + e) }, none)

/-- The guard of `TokenManager.ensure_valid_token` (auth.py lines 122–125):
`self.token_expiry is not None and time.time() >= self.token_expiry`. -/
def TokenManager.ensure_valid_token_refreshes (tm : TokenManager) (now : ℚ) : Bool :=
  match tm.token_expiry with
  | none => false
  | some e => decide (e ≤ now)

/-- `TokenManager.ensure_valid_token`: refreshes against `resp` when the
guard fires, otherwise no call is made and the state is returned as-is. -/
def TokenManager.ensure_valid_token (tm : TokenManager) (now : ℚ) (resp : OAuthResponse) :
    TokenManager × Option PyExc :=
  if tm.ensure_valid_token_refreshes now then tm.refresh_access_token resp now
  else (tm, none)

/-- `NorthboundClient` token state (northbound.py): `hasAppKey` models
`hasattr(self, "_app_key")`, i.e. whether the client was built by
`from_app_key` (key mechanism) or by the password constructor. -/
structure NorthboundClient where
  access_token : Option String := none
  token_expiry : Option ℚ := none
  hasAppKey : Bool := false
  deriving Repr, DecidableEq

/-- Python truthiness of `self.access_token` (`None` and `""` are falsy). -/
def pyTruthyStrOpt : Option String → Bool
  | none => false
  | some s => !(s == "")

/-- The guard of `NorthboundClient.ensure_token` (northbound.py lines
92–101): `not self.access_token or (self.token_expiry and time.time() >=
self.token_expiry)` — note the second conjunct tests the *truthiness* of
`token_expiry`, so a stored expiry of `0` never fires it. -/
def NorthboundClient.ensure_token_relogins (c : NorthboundClient) (now : ℚ) : Bool :=
  !pyTruthyStrOpt c.access_token ||
    (match c.token_expiry with
     | none => false
     | some e => !(e == 0) && decide (e ≤ now))

/-- The spec's validity predicate, stated from its words (§4.2):
`isValid(now) := token present and (expiry absent or now < expiry)`.
This is the definition the ensure-valid guards are compared against. -/
def isValidSpec (token : Option String) (expiry : Option ℚ) (now : ℚ) : Bool :=
  token.isSome &&
    (match expiry with
     | none => true
     | some e => decide (now < e))

/-- Configuration fields of `SigenMQTT` (mqtt.py) that the subscribe and
listen logic reads. -/
structure SigenMQTT where
  app_key : String
  system_ids : List String
  broker : String := "mqtt-eu.sigencloud.com"
  port : Nat := 8883
  deriving Repr, DecidableEq

/-- The JSON body published to the three subscription-request channels:
`{"accessToken": token, "systemIdList": self.system_ids}`. -/
structure SubPayload where
  accessToken : String
  systemIdList : List String
  deriving Repr, DecidableEq

/-- Observable actions of one pass of the `listen` loop. -/
inductive StreamEvent where
  | connAcquired
  | pubReq (channel : String) (payload : SubPayload)
  | subTopic (topic : String)
  | markDisconnected
  | sleepSecs (n : Nat)
  | cancelPropagated
  deriving Repr, DecidableEq

def StreamEvent.isPubReq : StreamEvent → Bool
  | .pubReq _ _ => true
  | _ => false

def StreamEvent.isSubTopic : StreamEvent → Bool
  | .subTopic _ => true
  | _ => false

/-- Events that occur inside the `try` body (before any `except` clause
runs): connection acquisition and broker pub/sub actions. -/
def StreamEvent.isBodyAct : StreamEvent → Bool
  | .connAcquired => true
  | .pubReq _ _ => true
  | .subTopic _ => true
  | _ => false

/-- The three subscription-request publications of `SigenMQTT._subscribe`
(mqtt.py lines 177–195), in program order. -/
def subRequestActions (m : SigenMQTT) (token : String) : List StreamEvent :=
  [.pubReq "openapi/subscription/period" ⟨token, m.system_ids⟩,
   .pubReq "openapi/subscription/change" ⟨token, m.system_ids⟩,
   .pubReq "openapi/subscription/alarm" ⟨token, m.system_ids⟩]

/-- The per-system topic subscriptions of `SigenMQTT._subscribe` (mqtt.py
lines 197–206): three `client.subscribe` calls per configured system id. -/
def topicSubActions (m : SigenMQTT) : List StreamEvent :=
  (m.system_ids.map (fun system_id =>
    [StreamEvent.subTopic ("openapi/period/" ++ m.app_key ++ "/" ++ system_id),
     StreamEvent.subTopic ("openapi/change/" ++ m.app_key ++ "/" ++ system_id),
     StreamEvent.subTopic ("openapi/alarm/" ++ m.app_key ++ "/" ++ system_id)])).flatten

/-- `SigenMQTT._subscribe` as its sequence of broker actions: first the
three subscription-request publications, then the topic subscriptions. -/
def subscribeActions (m : SigenMQTT) (token : String) : List StreamEvent :=
  subRequestActions m token ++ topicSubActions m

/-- The exceptions the `try` body of `listen` (mqtt.py lines 220–266) can
raise, matched in the order of the `except` clauses. -/
inductive ListenFault where
  | mqttError (msg : String)
  | cancelledError
  | otherError (msg : String)
  deriving Repr, DecidableEq

/-- One pass of the `while True` loop of `listen`, described by how far its
`try` body got before a fault: `noConn` faults before the client context
was entered (token fetch or connect failed); `conn token k f` entered the
context with this token (setting `_connected`), completed the first `k`
actions of `_subscribe`, streamed messages if `k` covers all of them, and
then hit fault `f`.  (The message stream only ends by an exception, so
every pass ends in some fault.) -/
inductive ListenIter where
  | noConn (f : ListenFault)
  | conn (token : String) (k : Nat) (f : ListenFault)
  deriving Repr, DecidableEq

def ListenIter.fault : ListenIter → ListenFault
  | .noConn f => f
  | .conn _ _ f => f

/-- The events of one pass of the loop body, up to the point its fault is
raised. -/
def iterActions (m : SigenMQTT) : ListenIter → List StreamEvent
  | .noConn _ => []
  | .conn token k _ => .connAcquired :: (subscribeActions m token).take k

/-- `SigenMQTT.listen` (mqtt.py lines 220–266) over a (finite prefix of
the) sequence of loop passes: each pass runs, its fault is handled by the
matching `except` clause — `aiomqtt.MqttError` marks the manager
disconnected and sleeps 30 s, `asyncio.CancelledError` marks it
disconnected and re-raises ending the loop, any other `Exception` marks it
disconnected and sleeps 60 s — and the loop then restarts from the top. -/
def listenTrace (m : SigenMQTT) : List ListenIter → List StreamEvent
  | [] => []
  | it :: rest =>
      iterActions m it ++
        match it.fault with
        | .mqttError _ => .markDisconnected :: .sleepSecs 30 :: listenTrace m rest
        | .cancelledError => [.markDisconnected, .cancelPropagated]
        | .otherError _ => .markDisconnected :: .sleepSecs 60 :: listenTrace m rest

/-- The connection-dependent runtime state read by
`send_battery_commands`: whether `self._mqtt_client` is set and the
`self._connected` flag. -/
structure MqttRuntime where
  mqtt_client_present : Bool
  connected : Bool
  deriving Repr, DecidableEq

/-- Outcome of `send_battery_commands`: an exception, or one publish of
the command payload `{"accessToken": ..., "commands": ...}`. -/
inductive SendOutcome where
  | excRaised (e : PyExc)
  | published (topic : String) (accessToken : String)
      (commands : List (List (String × JVal)))
  deriving Repr, DecidableEq

/-- `SigenMQTT.send_battery_commands` (mqtt.py lines 286–299): raises
`RuntimeError("MQTT not connected")` when no live client or not connected
(before any token work), otherwise publishes the ensured token and the
commands, unmodified, to `openapi/instruction/command`.  Returns the
post-state and the outcome. -/
def send_battery_commands (st : MqttRuntime) (token : String)
    (commands : List (List (String × JVal))) : MqttRuntime × SendOutcome :=
  if !st.mqtt_client_present || !st.connected then
    (st, .excRaised (.runtimeError "MQTT not connected"))
  else
    (st, .published "openapi/instruction/command" token commands)

/-- An entry of `cached_modes["defaultWorkingModes"]` (modes.py). -/
structure WorkingMode where
  value : String
  label : String
  deriving Repr, DecidableEq

/-- An entry of `cached_modes["energyProfileItems"]` (modes.py). -/
structure EnergyProfileItem where
  profileId : Int
  name : String
  deriving Repr, DecidableEq

/-- The `cached_modes` dict passed to `get_current_operational_mode`. -/
structure CachedModes where
  defaultWorkingModes : List WorkingMode
  energyProfileItems : List EnergyProfileItem
  deriving Repr, DecidableEq

/-- Python `str()` of an int. -/
def pyStrOfInt (n : Int) : String := toString n

/-- The first `for` loop of `get_current_operational_mode` (modes.py lines
41–43): return the label of the first default mode whose `value` equals
`str(current_mode)`. -/
def findDefaultLabel : List WorkingMode → Int → Option String
  | [], _ => none
  | m :: rest, current_mode =>
      if m.value == pyStrOfInt current_mode then some m.label
      else findDefaultLabel rest current_mode

/-- The second `for` loop (modes.py lines 46–48): return the name of the
first profile item whose `profileId` equals `current_profile_id`. -/
def findProfileName : List EnergyProfileItem → Int → Option String
  | [], _ => none
  | m :: rest, current_profile_id =>
      if m.profileId == current_profile_id then some m.name
      else findProfileName rest current_profile_id

/-- `get_current_operational_mode` (modes.py lines 24–50) as a function of
the response fields and the cached mode lists: dispatch on
`current_mode != 9`, fall through to `"Unknown mode"`. -/
def get_current_operational_mode (cached : CachedModes) (current_mode : Int)
    (current_profile_id : Int) : String :=
  if current_mode ≠ 9 then
    (findDefaultLabel cached.defaultWorkingModes current_mode).getD "Unknown mode"
  else
    (findProfileName cached.energyProfileItems current_profile_id).getD "Unknown mode"

/-- A batch of 25 identical command entries, one more than the documented
24-item limit. -/
def batch25 : List (List (String × JVal)) :=
  List.replicate 25 [("command", JVal.jstr "charge")]

end Sigen

namespace Sigen

/-- C5: the telemetry decoder on the spec's worked example yields pv 1.2 kW,
battery +0.5 kW (discharging — the arithmetic negation of the upstream
−500 W charge/discharge field), SOC 87.5, grid −0.3 kW (exporting) and
load 0.9 kW; and on every entry each watt field is the raw value divided
by 1000, the battery one negated. -/
theorem c5_decode_example :
    (TelemetryData.from_mqtt_payload specExampleEntry).pv_power_kw = 1.2 ∧
    (TelemetryData.from_mqtt_payload specExampleEntry).battery_power_kw = 0.5 ∧
    (TelemetryData.from_mqtt_payload specExampleEntry).soc_percent = 87.5 ∧
    (TelemetryData.from_mqtt_payload specExampleEntry).grid_power_kw = -0.3 ∧
    (TelemetryData.from_mqtt_payload specExampleEntry).load_power_kw = 0.9 ∧
    (∀ entry : RawEntry,
      (TelemetryData.from_mqtt_payload entry).pv_power_kw =
        floatField entry.value "pvPowerW" 0 / 1000 ∧
      (TelemetryData.from_mqtt_payload entry).battery_power_kw =
        -(floatField entry.value "storageChargeDischargePowerW" 0) / 1000 ∧
      (TelemetryData.from_mqtt_payload entry).grid_power_kw =
        floatField entry.value "gridActivePowerW" 0 / 1000 ∧
      (TelemetryData.from_mqtt_payload entry).load_power_kw =
        floatField entry.value "loadActivePowerW" 0 / 1000 ∧
      (TelemetryData.from_mqtt_payload entry).soc_percent =
        floatField entry.value "storageSOC%" 0) := by
  refine ⟨?_, ?_, ?_, ?_, ?_, fun entry => ⟨rfl, rfl, rfl, rfl, rfl⟩⟩ <;>
    simp [TelemetryData.from_mqtt_payload, floatField, jlookup, pyFloatOfJVal, pyFloat?,
      pyFloatCore, mantissaVal, expVal, digitsToNat, allDigits, List.splitOn,
      specExampleEntry] <;>
    norm_num

/-- C6: any expected numeric field that is absent or fails numeric parsing
resolves to the default without affecting the rest of the record; in
particular a missing or non-numeric `pvPowerW` decodes to
`pv_power_kw = 0`. -/
theorem c6_default_on_missing_or_unparseable :
    (∀ (values : List (String × JVal)) (key : String) (d : ℚ),
      (jlookup values key).bind pyFloatOfJVal = none → floatField values key d = d) ∧
    (∀ entry : RawEntry,
      (jlookup entry.value "pvPowerW" = none ∨
        (jlookup entry.value "pvPowerW").bind pyFloatOfJVal = none) →
      (TelemetryData.from_mqtt_payload entry).pv_power_kw = 0) := by
  constructor
  · intro values key d h
    simp [floatField, h]
  · intro entry h
    have hb : (jlookup entry.value "pvPowerW").bind pyFloatOfJVal = none := by
      rcases h with h | h

      · simp [h]
      · exact h
    simp [TelemetryData.from_mqtt_payload, floatField, hb]

/-- Witness for C6 at a concrete non-numeric and a concrete missing
`pvPowerW`. -/
theorem c6_witness :
    floatField [("pvPowerW", JVal.jstr "abc")] "pvPowerW" 0 = 0 ∧
    (TelemetryData.from_mqtt_payload { value := [("pvPowerW", JVal.jstr "abc")] }).pv_power_kw
      = 0 ∧
    (TelemetryData.from_mqtt_payload { value := [] }).pv_power_kw = 0 :=
  ⟨c6_default_on_missing_or_unparseable.1 _ _ _ (by decide),
   c6_default_on_missing_or_unparseable.2 _ (Or.inr (by decide)),
   c6_default_on_missing_or_unparseable.2 _ (Or.inl (by decide))⟩

/-- C7 (code divergence): a connected manager given a 25-entry batch
publishes all 25 commands unchanged — nothing rejects or truncates the
batch despite the documented 24-item limit. -/
theorem c7_oversized_batch_published :
    (send_battery_commands ⟨true, true⟩ "tok" batch25).2 =
      SendOutcome.published "openapi/instruction/command" "tok" batch25 ∧
    batch25.length = 25 ∧ 24 < batch25.length := by decide

/-- C8: with no live client or the connected flag down,
`send_battery_commands` raises `RuntimeError("MQTT not connected")`,
publishes nothing and changes no state; when connected it publishes the
ensured token together with the commands. -/
theorem c8_send_requires_connection :
    ∀ (st : MqttRuntime) (token : String) (commands : List (List (String × JVal))),
      ((st.mqtt_client_present = false ∨ st.connected = false) →
        send_battery_commands st token commands =
          (st, SendOutcome.excRaised (PyExc.runtimeError "MQTT not connected"))) ∧
      (st.mqtt_client_present = true → st.connected = true →
        send_battery_commands st token commands =
          (st, SendOutcome.published "openapi/instruction/command" token commands)) := by
  intro st token commands
  constructor
  · rintro (h | h) <;> simp [send_battery_commands, h]
  · intro h1 h2
    simp [send_battery_commands, h1, h2]

/-- Witness for C8: a disconnected state raises, a connected one
publishes. -/
theorem c8_witness :
    send_battery_commands ⟨false, true⟩ "tok" batch25 =
      (⟨false, true⟩, SendOutcome.excRaised (PyExc.runtimeError "MQTT not connected")) ∧
    send_battery_commands ⟨true, true⟩ "tok" [] =
      (⟨true, true⟩, SendOutcome.published "openapi/instruction/command" "tok" []) :=
  ⟨(c8_send_requires_connection ⟨false, true⟩ "tok" batch25).1 (Or.inl rfl),
   (c8_send_requires_connection ⟨true, true⟩ "tok" []).2 rfl rfl⟩

/-- C10: `TokenManager.headers` is total, always the exact two-entry
mapping, and with no token ever installed the Authorization value is the
literal `"Bearer None"`. -/
theorem c10_headers_total :
    (∀ tm : TokenManager,
      tm.headers = [("Authorization", "Bearer " ++ pyStrOfOpt tm.access_token),
                    ("Content-Type", "application/json")] ∧
      tm.headers.length = 2) ∧
    TokenManager.headers { } =
      [("Authorization", "Bearer None"), ("Content-Type", "application/json")] :=
  ⟨fun _ => ⟨rfl, rfl⟩, rfl⟩

theorem findDefaultLabel_eq_find? (l : List WorkingMode) (cm : Int) :
    findDefaultLabel l cm =
      (l.find? (fun m => m.value == pyStrOfInt cm)).map WorkingMode.label := by
  induction l with
  | nil => rfl
  | cons m rest ih =>
      by_cases h : m.value == pyStrOfInt cm <;>
        simp [findDefaultLabel, List.find?, h, ih]

theorem findProfileName_eq_find? (l : List EnergyProfileItem) (pid : Int) :
    findProfileName l pid =
      (l.find? (fun m => m.profileId == pid)).map EnergyProfileItem.name := by
  induction l with
  | nil => rfl
  | cons m rest ih =>
      by_cases h : m.profileId == pid <;>
        simp [findProfileName, List.find?, h, ih]

/-- C9: mode-label resolution dispatches on the mode value — any value
other than 9 is matched (as a string) against the cached default working
modes, exactly 9 is matched by profileId against the cached custom
energy-profile items, and a miss in the selected list yields
`"Unknown mode"`. -/
theorem c9_mode_dispatch :
    ∀ (dwm : List WorkingMode) (epi : List EnergyProfileItem) (cm pid : Int),
      (cm ≠ 9 →
        get_current_operational_mode ⟨dwm, epi⟩ cm pid =
          ((dwm.find? (fun m => m.value == pyStrOfInt cm)).map WorkingMode.label).getD
            "Unknown mode") ∧
      (cm = 9 →
        get_current_operational_mode ⟨dwm, epi⟩ cm pid =
          ((epi.find? (fun m => m.profileId == pid)).map EnergyProfileItem.name).getD
            "Unknown mode") ∧
      (cm ≠ 9 → (∀ m ∈ dwm, m.value ≠ pyStrOfInt cm) →
        get_current_operational_mode ⟨dwm, epi⟩ cm pid = "Unknown mode") ∧
      (cm = 9 → (∀ m ∈ epi, m.profileId ≠ pid) →
        get_current_operational_mode ⟨dwm, epi⟩ cm pid = "Unknown mode") := by
  intro dwm epi cm pid
  refine ⟨fun h => ?_, fun h => ?_, fun h hnone => ?_, fun h hnone => ?_⟩
  · simp [get_current_operational_mode, h, findDefaultLabel_eq_find?]
  · simp [get_current_operational_mode, h, findProfileName_eq_find?]
  · have hf : dwm.find? (fun m => m.value == pyStrOfInt cm) = none := by
      rw [List.find?_eq_none]
      intro m hm
      simpa using hnone m hm
    simp [get_current_operational_mode, h, findDefaultLabel_eq_find?, hf]
  · have hf : epi.find? (fun m => m.profileId == pid) = none := by
      rw [List.find?_eq_none]
      intro m hm
      simpa using hnone m hm
    simp [get_current_operational_mode, h, findProfileName_eq_find?, hf]

/-- Witness for C9: mode 3 resolves by value, mode 9 by profileId, and
misses give "Unknown mode". -/
theorem c9_witness :
    get_current_operational_mode ⟨[⟨"3", "TOU"⟩], [⟨7, "Custom A"⟩]⟩ 3 7 = "TOU" ∧
    get_current_operational_mode ⟨[⟨"3", "TOU"⟩], [⟨7, "Custom A"⟩]⟩ 9 7 = "Custom A" ∧
    get_current_operational_mode ⟨[⟨"3", "TOU"⟩], [⟨7, "Custom A"⟩]⟩ 5 7 = "Unknown mode" := by
  refine ⟨?_, ?_, ?_⟩
  · rw [(c9_mode_dispatch [⟨"3", "TOU"⟩] [⟨7, "Custom A"⟩] 3 7).1 (by decide)]
    decide
  · rw [(c9_mode_dispatch [⟨"3", "TOU"⟩] [⟨7, "Custom A"⟩] 9 7).2.1 rfl]
    decide
  · exact (c9_mode_dispatch [⟨"3", "TOU"⟩] [⟨7, "Custom A"⟩] 5 7).2.2.1 (by decide)
      (by decide)

/-- C3 (counterexample to the claim as stated): the freshly constructed
token store has no token, so it is not valid under the spec's
`isValid`, yet `TokenManager.ensure_valid_token` performs no refresh and
no state change at instant 100: its guard only consults `token_expiry`. -/
theorem c3_counterexample :
    isValidSpec none none 100 = false ∧
    TokenManager.ensure_valid_token_refreshes { } 100 = false ∧
    TokenManager.ensure_valid_token { } 100 ⟨500, none⟩ = ({ }, none) :=
  ⟨rfl, rfl, rfl⟩

/-- C3 (amended): `TokenManager.ensure_valid_token` refreshes iff an
expiry is recorded and now ≥ expiry (token presence is never consulted);
`now = expiry` counts as stale; when the guard does not fire there is no
call and no state change.  `NorthboundClient.ensure_token` re-logins iff
the stored token is absent or empty, or a nonzero recorded expiry
satisfies now ≥ expiry. -/
theorem c3_guard_characterization :
    ∀ (tm : TokenManager) (c : NorthboundClient) (now : ℚ),
      (tm.ensure_valid_token_refreshes now = true ↔
        ∃ e, tm.token_expiry = some e ∧ e ≤ now) ∧
      ((∃ e, tm.token_expiry = some e ∧ now = e) →
        tm.ensure_valid_token_refreshes now = true) ∧
      (∀ resp, tm.ensure_valid_token_refreshes now = false →
        tm.ensure_valid_token now resp = (tm, none)) ∧
      (c.ensure_token_relogins now = true ↔
        (pyTruthyStrOpt c.access_token = false ∨
          ∃ e, c.token_expiry = some e ∧ e ≠ 0 ∧ e ≤ now)) := by
  intro tm c now
  refine ⟨?_, ?_, ?_, ?_⟩
  · cases h : tm.token_expiry with
    | none => simp [TokenManager.ensure_valid_token_refreshes, h]
    | some e => simp [TokenManager.ensure_valid_token_refreshes, h]
  · rintro ⟨e, he, rfl⟩
    simp [TokenManager.ensure_valid_token_refreshes, he]
  · intro resp h
    simp [TokenManager.ensure_valid_token, h]
  · cases ht : c.access_token with
    | none =>
        simp [NorthboundClient.ensure_token_relogins, pyTruthyStrOpt, ht]
    | some s =>
        cases he : c.token_expiry with
        | none =>
            by_cases hs : s = "" <;>
              simp [NorthboundClient.ensure_token_relogins, pyTruthyStrOpt, ht, he, hs]
        | some e =>
            by_cases hs : s = "" <;> by_cases hz : e = 0 <;>
              simp [NorthboundClient.ensure_token_relogins, pyTruthyStrOpt, ht, he, hs, hz]

theorem oauthDataFalsy_access_none (d : OAuthData) (h : oauthDataFalsy (some d) = true) :
    d.access_token = none := by
  rcases d with ⟨a, r, e, x⟩
  simp only [oauthDataFalsy, Bool.and_eq_true, Option.isNone_iff_eq_none] at h
  exact h.1.1.1

/-- C4: the password-grant login fails with `SigenAuthError` exactly on
HTTP 401, any other non-200, a missing/falsy `data` envelope, or an
envelope missing one of the three keys; the refresh fails with
`SigenTokenExpiredError` under the same response conditions (minus the
separate 401 case); and on every failure path no token-store field is
mutated, while success installs the full triple. -/
theorem c4_atomic_token_install :
    ∀ (tm : TokenManager) (resp : OAuthResponse) (now : ℚ),
      ((tm.get_access_token resp now).2 = some PyExc.sigenAuthError ↔
        (resp.status = 401 ∨ resp.status ≠ 200 ∨ resp.data = none ∨
          ∃ d, resp.data = some d ∧
            (d.access_token = none ∨ d.refresh_token = none ∨ d.expires_in = none))) ∧
      ((tm.refresh_access_token resp now).2 = some PyExc.sigenTokenExpiredError ↔
        (resp.status ≠ 200 ∨ resp.data = none ∨
          ∃ d, resp.data = some d ∧
            (d.access_token = none ∨ d.refresh_token = none ∨ d.expires_in = none))) ∧
      (∀ e, (tm.get_access_token resp now).2 = some e →
        (tm.get_access_token resp now).1 = tm) ∧
      (∀ e, (tm.refresh_access_token resp now).2 = some e →
        (tm.refresh_access_token resp now).1 = tm) ∧
      ((tm.get_access_token resp now).2 = none →
        (tm.get_access_token resp now).1.access_token.isSome = true ∧
        (tm.get_access_token resp now).1.refresh_token.isSome = true ∧
        (tm.get_access_token resp now).1.token_expiry.isSome = true) := by
  intro tm resp now
  obtain ⟨status, data⟩ := resp
  by_cases h401 : status = 401
  · subst h401
    refine ⟨by simp [TokenManager.get_access_token], ?_, ?_, ?_, ?_⟩
    · simp only [TokenManager.refresh_access_token]
      norm_num
    · intro e
      simp [TokenManager.get_access_token]
    · intro e
      simp only [TokenManager.refresh_access_token]
      norm_num
    · simp [TokenManager.get_access_token]
  · by_cases h200 : status = 200
    · subst h200
      cases data with
      | none =>
          refine ⟨?_, ?_, ?_, ?_, ?_⟩ <;>
            simp [TokenManager.get_access_token, TokenManager.refresh_access_token, h401]
      | some d =>
          by_cases hc : (oauthDataFalsy (some d) || d.access_token.isNone
              || d.refresh_token.isNone || d.expires_in.isNone) = true
          · have hfields : d.access_token = none ∨ d.refresh_token = none
                ∨ d.expires_in = none := by
              rcases (by simpa [Bool.or_eq_true, Option.isNone_iff_eq_none] using hc) with
                ((hf | ha) | hr) | he
              · exact Or.inl (oauthDataFalsy_access_none d hf)
              · exact Or.inl ha
              · exact Or.inr (Or.inl hr)
              · exact Or.inr (Or.inr he)
            refine ⟨?_, ?_, ?_, ?_, ?_⟩ <;>
              simp [TokenManager.get_access_token, TokenManager.refresh_access_token,
                h401, hc]
            · exact hfields
            · exact hfields
          · have hnone : ¬(d.access_token = none ∨ d.refresh_token = none
                ∨ d.expires_in = none) := by
              simp only [Bool.or_eq_true, Option.isNone_iff_eq_none] at hc
              push_neg at hc
              push_neg
              exact ⟨hc.1.1.2, hc.1.2, hc.2⟩
            have hei : ∃ e, d.expires_in = some e := by
              rcases hd : d.expires_in with _ | e
              · exact absurd (Or.inr (Or.inr hd)) hnone
              · exact ⟨e, rfl⟩
            refine ⟨?_, ?_, ?_, ?_, ?_⟩ <;>
              simp [TokenManager.get_access_token, TokenManager.refresh_access_token,
                h401, hc]
            · push_neg at hnone
              exact hnone
            · push_neg at hnone
              exact hnone
            · obtain ⟨e, he⟩ := hei
              rcases hd : d.access_token with _ | a
              · exact absurd (Or.inl hd) hnone
              rcases hr : d.refresh_token with _ | r
              · exact absurd (Or.inr (Or.inl hr)) hnone
              simp [hd, hr, he]
    · have h200' : status ≠ 200 := h200
      refine ⟨?_, ?_, ?_, ?_, ?_⟩ <;>
        simp [TokenManager.get_access_token, TokenManager.refresh_access_token, h401, h200']

/-- Witness for C4: a 500 login response raises `SigenAuthError` leaving
the store untouched, and a 500 refresh raises `SigenTokenExpiredError`
leaving the stale triple readable. -/
theorem c4_witness :
    (TokenManager.get_access_token ⟨some "a", some "r", some 9⟩ ⟨500, none⟩ 0).1 =
      ⟨some "a", some "r", some 9⟩ ∧
    (TokenManager.get_access_token ⟨some "a", some "r", some 9⟩ ⟨500, none⟩ 0).2 =
      some PyExc.sigenAuthError ∧
    (TokenManager.refresh_access_token ⟨some "a", some "r", some 9⟩ ⟨500, none⟩ 0).1 =
      ⟨some "a", some "r", some 9⟩ ∧
    (TokenManager.refresh_access_token ⟨some "a", some "r", some 9⟩ ⟨500, none⟩ 0).2 =
      some PyExc.sigenTokenExpiredError :=
  ⟨(c4_atomic_token_install ⟨some "a", some "r", some 9⟩ ⟨500, none⟩ 0).2.2.1
      PyExc.sigenAuthError rfl,
   (c4_atomic_token_install ⟨some "a", some "r", some 9⟩ ⟨500, none⟩ 0).1.mpr
      (Or.inr (Or.inl (by norm_num))),
   (c4_atomic_token_install ⟨some "a", some "r", some 9⟩ ⟨500, none⟩ 0).2.2.2.1
      PyExc.sigenTokenExpiredError rfl,
   (c4_atomic_token_install ⟨some "a", some "r", some 9⟩ ⟨500, none⟩ 0).2.1.mpr
      (Or.inl (by norm_num))⟩

/-- Witness for C3's amended characterization at the stale boundary
`now = expiry` and at a valid store. -/
theorem c3_witness :
    TokenManager.ensure_valid_token_refreshes ⟨some "t", some "r", some 5⟩ 5 = true ∧
    TokenManager.ensure_valid_token ⟨some "t", some "r", some 99⟩ 5 ⟨500, none⟩ =
      (⟨some "t", some "r", some 99⟩, none) ∧
    NorthboundClient.ensure_token_relogins ⟨none, none, true⟩ 0 = true :=
  ⟨(c3_guard_characterization ⟨some "t", some "r", some 5⟩ ⟨none, none, true⟩ 5).2.1
      ⟨5, rfl, rfl⟩,
   (c3_guard_characterization ⟨some "t", some "r", some 99⟩ ⟨none, none, true⟩ 5).2.2.1
      ⟨500, none⟩ (by norm_num [TokenManager.ensure_valid_token_refreshes]),
   (c3_guard_characterization ⟨some "t", some "r", some 5⟩ ⟨none, none, true⟩ 0).2.2.2.mpr
      (Or.inl rfl)⟩

theorem mem_topicSubActions_isSubTopic (m : SigenMQTT) :
    ∀ e ∈ topicSubActions m, e.isSubTopic = true := by
  intro e he
  simp only [topicSubActions, List.mem_flatten, List.mem_map] at he
  obtain ⟨l, ⟨sid, hsid, rfl⟩, hel⟩ := he
  simp only [List.mem_cons, List.not_mem_nil, or_false] at hel
  rcases hel with rfl | rfl | rfl <;> rfl

theorem mem_iterActions_isBodyAct (m : SigenMQTT) (it : ListenIter) :
    ∀ e ∈ iterActions m it, e.isBodyAct = true := by
  intro e he
  cases it with
  | noConn f => simp [iterActions] at he
  | conn tok k f =>
      simp only [iterActions, List.mem_cons] at he
      rcases he with rfl | he
      · rfl
      · have he' := List.mem_of_mem_take he
        simp only [subscribeActions, List.mem_append] at he'
        rcases he' with he' | he'
        · simp only [subRequestActions, List.mem_cons, List.not_mem_nil, or_false] at he'
          rcases he' with rfl | rfl | rfl <;> rfl
        · have hs := mem_topicSubActions_isSubTopic m e he'
          cases e <;> simp_all [StreamEvent.isSubTopic, StreamEvent.isBodyAct]

theorem not_mem_iterActions (m : SigenMQTT) (it : ListenIter) :
    StreamEvent.markDisconnected ∉ iterActions m it ∧
    StreamEvent.cancelPropagated ∉ iterActions m it ∧
    ∀ n, StreamEvent.sleepSecs n ∉ iterActions m it := by
  refine ⟨fun h => ?_, fun h => ?_, fun n h => ?_⟩ <;>
    simpa [StreamEvent.isBodyAct] using mem_iterActions_isBodyAct m it _ h

/-- C1: each pass of the listen loop marks the manager disconnected on any
fault; a broker-level (`MqttError`) fault is followed by exactly a 30 s
sleep and the loop restarts, any other unexpected fault by a 60 s sleep
and a restart, while a cancellation is re-raised immediately with no
further passes; and when no pass is cancelled, every pass is processed and
no cancellation is propagated — no other fault terminates the loop. -/
theorem c1_reconnect_policy :
    ∀ (m : SigenMQTT) (it : ListenIter) (rest : List ListenIter),
      (∀ msg, it.fault = ListenFault.mqttError msg →
        listenTrace m (it :: rest) =
          iterActions m it ++
            StreamEvent.markDisconnected :: StreamEvent.sleepSecs 30 :: listenTrace m rest) ∧
      (∀ msg, it.fault = ListenFault.otherError msg →
        listenTrace m (it :: rest) =
          iterActions m it ++
            StreamEvent.markDisconnected :: StreamEvent.sleepSecs 60 :: listenTrace m rest) ∧
      (it.fault = ListenFault.cancelledError →
        listenTrace m (it :: rest) =
          iterActions m it ++ [StreamEvent.markDisconnected, StreamEvent.cancelPropagated]) ∧
      (∀ its : List ListenIter, (∀ i ∈ its, i.fault ≠ ListenFault.cancelledError) →
        StreamEvent.cancelPropagated ∉ listenTrace m its ∧
        (listenTrace m its).count StreamEvent.markDisconnected = its.length) := by
  intro m it rest
  refine ⟨fun msg h => ?_, fun msg h => ?_, fun h => ?_, ?_⟩
  · simp [listenTrace, h]
  · simp [listenTrace, h]
  · simp [listenTrace, h]
  · intro its
    induction its with
    | nil => intro _; simp [listenTrace]
    | cons i rest' ih =>
        intro hno
        have hi : i.fault ≠ ListenFault.cancelledError := hno i (by simp)
        have hrest := ih (fun j hj => hno j (by simp [hj]))
        have hA := (not_mem_iterActions m i).2.1
        have hM := (not_mem_iterActions m i).1
        cases hf : i.fault with
        | mqttError msg =>
            constructor
            · simp [listenTrace, hf, hA, hrest.1]
            · simp [listenTrace, hf, List.count_append, List.count_cons,
                List.count_eq_zero.mpr hM, hrest.2]
        | cancelledError => exact absurd hf hi
        | otherError msg =>
            constructor
            · simp [listenTrace, hf, hA, hrest.1]
            · simp [listenTrace, hf, List.count_append, List.count_cons,
                List.count_eq_zero.mpr hM, hrest.2]

/-- Witness for C1 at concrete passes: a broker fault sleeps 30 s and
restarts, a cancellation ends the trace, and a cancel-free run processes
both passes without propagating a cancellation. -/
theorem c1_witness :
    listenTrace ⟨"app", ["S1"], "b", 1⟩
        [ListenIter.conn "tok" 1 (ListenFault.mqttError "down")] =
      iterActions ⟨"app", ["S1"], "b", 1⟩ (ListenIter.conn "tok" 1 (ListenFault.mqttError "down"))
        ++ StreamEvent.markDisconnected :: StreamEvent.sleepSecs 30 ::
          listenTrace ⟨"app", ["S1"], "b", 1⟩ [] ∧
    listenTrace ⟨"app", ["S1"], "b", 1⟩ [ListenIter.noConn ListenFault.cancelledError] =
      iterActions ⟨"app", ["S1"], "b", 1⟩ (ListenIter.noConn ListenFault.cancelledError)
        ++ [StreamEvent.markDisconnected, StreamEvent.cancelPropagated] ∧
    StreamEvent.cancelPropagated ∉
      listenTrace ⟨"app", ["S1"], "b", 1⟩
        [ListenIter.noConn (ListenFault.otherError "x"),
         ListenIter.conn "t" 0 (ListenFault.mqttError "y")] ∧
    (listenTrace ⟨"app", ["S1"], "b", 1⟩
        [ListenIter.noConn (ListenFault.otherError "x"),
         ListenIter.conn "t" 0 (ListenFault.mqttError "y")]).count
      StreamEvent.markDisconnected = 2 :=
  ⟨(c1_reconnect_policy ⟨"app", ["S1"], "b", 1⟩
      (ListenIter.conn "tok" 1 (ListenFault.mqttError "down")) []).1 "down" rfl,
   (c1_reconnect_policy ⟨"app", ["S1"], "b", 1⟩
      (ListenIter.noConn ListenFault.cancelledError) []).2.2.1 rfl,
   ((c1_reconnect_policy ⟨"app", ["S1"], "b", 1⟩
      (ListenIter.noConn ListenFault.cancelledError) []).2.2.2
      [ListenIter.noConn (ListenFault.otherError "x"),
       ListenIter.conn "t" 0 (ListenFault.mqttError "y")] (by decide)).1,
   ((c1_reconnect_policy ⟨"app", ["S1"], "b", 1⟩
      (ListenIter.noConn ListenFault.cancelledError) []).2.2.2
      [ListenIter.noConn (ListenFault.otherError "x"),
       ListenIter.conn "t" 0 (ListenFault.mqttError "y")] (by decide)).2⟩

theorem isSubTopic_not_isPubReq (e : StreamEvent) (h : e.isSubTopic = true) :
    e.isPubReq = false := by
  cases e <;> simp_all [StreamEvent.isSubTopic, StreamEvent.isPubReq]

/-- C2: on every pass of the listen loop the broker actions after a
successful connect are exactly a prefix of `_subscribe`'s action list,
whose first three actions are the period/change/alarm subscription-request
publications — each carrying the access token and the system-id list —
and in which every topic subscription (three per configured system id)
occurs strictly after all the publications. -/
theorem c2_requests_before_subscriptions :
    ∀ (m : SigenMQTT) (token : String),
      (subscribeActions m token).take 3 =
        [StreamEvent.pubReq "openapi/subscription/period" ⟨token, m.system_ids⟩,
         StreamEvent.pubReq "openapi/subscription/change" ⟨token, m.system_ids⟩,
         StreamEvent.pubReq "openapi/subscription/alarm" ⟨token, m.system_ids⟩] ∧
      (∀ sid ∈ m.system_ids,
        StreamEvent.subTopic ("openapi/period/" ++ m.app_key ++ "/" ++ sid)
          ∈ subscribeActions m token ∧
        StreamEvent.subTopic ("openapi/change/" ++ m.app_key ++ "/" ++ sid)
          ∈ subscribeActions m token ∧
        StreamEvent.subTopic ("openapi/alarm/" ++ m.app_key ++ "/" ++ sid)
          ∈ subscribeActions m token) ∧
      (∀ (i : Nat) (h : i < (subscribeActions m token).length),
        ((subscribeActions m token).get ⟨i, h⟩).isSubTopic = true → 3 ≤ i) ∧
      (∀ (i : Nat) (h : i < (subscribeActions m token).length),
        ((subscribeActions m token).get ⟨i, h⟩).isPubReq = true → i < 3) ∧
      (∀ (tok : String) (k : Nat) (f : ListenFault) (rest : List ListenIter),
        ∃ tail, listenTrace m (ListenIter.conn tok k f :: rest) =
          StreamEvent.connAcquired :: ((subscribeActions m tok).take k ++ tail)) := by
  intro m token
  refine ⟨?_, ?_, ?_, ?_, ?_⟩
  · simp [subscribeActions, subRequestActions]
  · intro sid hsid
    have hb : [StreamEvent.subTopic ("openapi/period/" ++ m.app_key ++ "/" ++ sid),
               StreamEvent.subTopic ("openapi/change/" ++ m.app_key ++ "/" ++ sid),
               StreamEvent.subTopic ("openapi/alarm/" ++ m.app_key ++ "/" ++ sid)]
        ∈ m.system_ids.map (fun system_id =>
            [StreamEvent.subTopic ("openapi/period/" ++ m.app_key ++ "/" ++ system_id),
             StreamEvent.subTopic ("openapi/change/" ++ m.app_key ++ "/" ++ system_id),
             StreamEvent.subTopic ("openapi/alarm/" ++ m.app_key ++ "/" ++ system_id)]) :=
      List.mem_map_of_mem _ hsid
    refine ⟨?_, ?_, ?_⟩ <;>
      exact List.mem_append_right _ (List.mem_flatten.mpr ⟨_, hb, by simp⟩)
  · intro i h hsub
    by_contra hlt
    push_neg at hlt
    interval_cases i <;> simp [subscribeActions, subRequestActions,
      StreamEvent.isSubTopic] at hsub
  · intro i h hpub
    by_contra hge
    push_neg at hge
    have h3 : (subRequestActions m token).length ≤ i := hge
    have hco : (subscribeActions m token).get ⟨i, h⟩ ∈ topicSubActions m := by
      rw [List.get_eq_getElem]
      simp only [subscribeActions] at h ⊢
      rw [List.getElem_append_right h3]
      exact List.getElem_mem _
    have hfalse := isSubTopic_not_isPubReq _ (mem_topicSubActions_isSubTopic m _ hco)
    rw [hpub] at hfalse
    exact Bool.noConfusion hfalse
  · intro tok k f rest
    cases f with
    | mqttError msg =>
        exact ⟨StreamEvent.markDisconnected :: StreamEvent.sleepSecs 30 :: listenTrace m rest,
          by simp [listenTrace, iterActions, ListenIter.fault]⟩
    | cancelledError =>
        exact ⟨[StreamEvent.markDisconnected, StreamEvent.cancelPropagated],
          by simp [listenTrace, iterActions, ListenIter.fault]⟩
    | otherError msg =>
        exact ⟨StreamEvent.markDisconnected :: StreamEvent.sleepSecs 60 :: listenTrace m rest,
          by simp [listenTrace, iterActions, ListenIter.fault]⟩

/-- Witness for C2 at a concrete manager: the three requests head the
action list, the per-system topics are present, a subscription index is
past the requests, and a connected pass emits the subscribe prefix. -/
theorem c2_witness :
    (subscribeActions ⟨"app", ["S1"], "b", 1⟩ "tok").take 3 =
      [StreamEvent.pubReq "openapi/subscription/period" ⟨"tok", ["S1"]⟩,
       StreamEvent.pubReq "openapi/subscription/change" ⟨"tok", ["S1"]⟩,
       StreamEvent.pubReq "openapi/subscription/alarm" ⟨"tok", ["S1"]⟩] ∧
    StreamEvent.subTopic "openapi/period/app/S1"
      ∈ subscribeActions ⟨"app", ["S1"], "b", 1⟩ "tok" ∧
    (3 ≤ 3 ∧ (4 : Nat) < (subscribeActions ⟨"app", ["S1"], "b", 1⟩ "tok").length) ∧
    (∃ tail, listenTrace ⟨"app", ["S1"], "b", 1⟩
        [ListenIter.conn "tok" 2 (ListenFault.otherError "x")] =
      StreamEvent.connAcquired ::
        ((subscribeActions ⟨"app", ["S1"], "b", 1⟩ "tok").take 2 ++ tail)) := by
  refine ⟨(c2_requests_before_subscriptions ⟨"app", ["S1"], "b", 1⟩ "tok").1, ?_, ?_, ?_⟩
  · exact ((c2_requests_before_subscriptions ⟨"app", ["S1"], "b", 1⟩ "tok").2.1 "S1"
      (by decide)).1
  · constructor
    · exact (c2_requests_before_subscriptions ⟨"app", ["S1"], "b", 1⟩ "tok").2.2.1 3
        (by decide) (by decide)
    · decide
  · exact (c2_requests_before_subscriptions ⟨"app", ["S1"], "b", 1⟩ "tok").2.2.2.2 "tok" 2
      (ListenFault.otherError "x") []

end Sigen
